import Mathlib

/-!
Verification of the S1 burst-map GeoJSON tiling scripts
(S1burstkmz2geojsontile.py and S1burstkmz2geojsontile_dissolve.py).

The Python sources are shallowly embedded below: pure functions become Lean
functions, the file-backed tile store becomes an explicit map from paths to
feature lists, floating-point arithmetic is modelled over the reals (for the
tile-index formula) and the rationals (for coordinate data, which enters as
decimal JSON numbers), and code that can raise becomes `Except`.
-/

namespace S1

open Real

/-! ## Coordinates and input features

GeoJSON coordinates are `[lon, lat]` pairs; a Polygon's `coordinates` is a
list of rings, the first being the exterior ring. -/

abbrev Coord := ℚ × ℚ

/-! ## Python string primitives

Embedded structurally over character lists so that concrete runs reduce in
the kernel. -/

/-- Helper for `pySplit`: split a character list on a separator character. -/
def pySplitAux (sep : Char) : List Char → List (List Char)
  | [] => [[]]
  | c :: rest =>
    if c = sep then [] :: pySplitAux sep rest
    else
      match pySplitAux sep rest with
      | [] => [[c]]
      | h :: t => (c :: h) :: t

/-- Python's `s.split(sep)` for a one-character separator: the (always
non-empty) list of maximal chunks between separator occurrences, keeping
empty chunks (`''.split(sep) == ['']`). -/
def pySplit (sep : Char) (s : String) : List String :=
  (pySplitAux sep s.data).map String.mk

/-- Helper for `pyToInt`: fold decimal digits, failing on a non-digit. -/
def pyDigits : List Char → ℕ → Option ℕ
  | [], acc => some acc
  | c :: rest, acc =>
    if c.isDigit then pyDigits rest (acc * 10 + (c.toNat - 48)) else none

/-- Python's `int(s)` on the strings relevant here: an optional sign followed
by one or more decimal digits; anything else fails. -/
def pyToInt (s : String) : Option ℤ :=
  match s.data with
  | [] => none
  | '-' :: rest =>
    if rest = [] then none else (pyDigits rest 0).map (fun n => -(n : ℤ))
  | '+' :: rest =>
    if rest = [] then none else (pyDigits rest 0).map (fun n => (n : ℤ))
  | l => (pyDigits l 0).map (fun n => (n : ℤ))

/-- Python's `s[0:n]` slice. -/
def pyTake (s : String) (n : ℕ) : String := String.mk (s.data.take n)

/-- Decidable equality for `Except`, so concrete runs of the fallible
pipeline steps can be checked by evaluation. -/
def exceptDecEq {ε α : Type} [DecidableEq ε] [DecidableEq α] :
    (a b : Except ε α) → Decidable (a = b)
  | Except.ok x, Except.ok y =>
    if h : x = y then isTrue (h ▸ rfl)
    else isFalse (fun hh => h (by injection hh))
  | Except.ok _, Except.error _ => isFalse (fun hh => Except.noConfusion hh)
  | Except.error _, Except.ok _ => isFalse (fun hh => Except.noConfusion hh)
  | Except.error e, Except.error f =>
    if h : e = f then isTrue (h ▸ rfl)
    else isFalse (fun hh => h (by injection hh))

instance {ε α : Type} [DecidableEq ε] [DecidableEq α] : DecidableEq (Except ε α) :=
  exceptDecEq

structure InFeature where
  description : String
  coordinates : List (List Coord)
deriving DecidableEq

/-- `feature['geometry']['coordinates'][0][0][1]` — latitude of the first
vertex of the first (exterior) ring.  The scripts assume the rings are
non-empty; we default to `(0, 0)` to stay total. -/
def firstLat (f : InFeature) : ℚ := ((f.coordinates.headD []).headD (0, 0)).2

/-- `feature['geometry']['coordinates'][0][0][0]` — longitude of the first
vertex of the first ring. -/
def firstLon (f : InFeature) : ℚ := ((f.coordinates.headD []).headD (0, 0)).1

/-- `feature['geometry']['coordinates'][0]` — the exterior ring, used by the
dissolve script as `Polygon(feature['geometry']['coordinates'][0])`. -/
def ring0 (f : InFeature) : List Coord := f.coordinates.headD []

/-! ## Settings (identical in both scripts) -/

def colorA : String := "#0000ff"

def colorD : String := "#ff0000"

def line_opacity : ℚ := 0.4

def line_width : ℚ := 1

def fill_opacity : ℚ := 0.1

def tolerance : ℚ := 0.05

def bname : String := "S1burst"

/-! ## Tile index calculator (`latlon2tileid`)

Python's `int()` truncates toward zero. -/

noncomputable def pyInt (x : ℝ) : ℤ := if 0 ≤ x then ⌊x⌋ else -⌊-x⌋

noncomputable def deg2rad (d : ℝ) : ℝ := d * π / 180

/-- `latlon2tileid(lat, lon, zl)`:
`x = int((lon/180+1)*2**zl/2)` and
`y = int(((-np.log(np.tan(np.deg2rad(45+lat/2)))+np.pi)*2**zl/(2*np.pi)))`. -/
noncomputable def latlon2tileid (lat lon : ℝ) (zl : ℕ) : ℤ × ℤ :=
  (pyInt ((lon / 180 + 1) * 2 ^ zl / 2),
   pyInt ((-Real.log (Real.tan (deg2rad (45 + lat / 2))) + π) * 2 ^ zl / (2 * π)))

/-! ## Tile feature store (`add_feature`)

The filesystem is modelled as a map from file paths to the parsed feature
list of the stored FeatureCollection; `none` means the file does not exist. -/

def FS (α : Type) : Type := String → Option (List α)

def FS.update {α : Type} (fs : FS α) (k : String) (v : List α) : FS α :=
  fun k2 => if k2 = k then some v else fs k2

/-- `add_feature(feature, geojson)`: if the file does not exist, create it
holding `{type: FeatureCollection, features: []}`; then read it, append the
feature, and write the whole collection back. -/
def add_feature {α : Type} (feature : α) (geojson : String) (fs : FS α) : FS α :=
  let fs1 : FS α :=
    match fs geojson with
    | none => fs.update geojson []
    | some _ => fs
  let features_list := (fs1 geojson).getD []
  fs1.update geojson (features_list ++ [feature])

/-! ## Footprint classifier -/

/-- `descr.split('>')[11].split('<')[0]` — the 12th `>`-delimited segment,
read up to the next `<`. -/
def orbToken (descr : String) : String :=
  (pySplit '<' ((pySplit '>' descr).getD 11 "")).headD ""

/-- `descr.split('>')[17].split('<')[0]` — the burst id token. -/
def bidToken (descr : String) : String :=
  (pySplit '<' ((pySplit '>' descr).getD 17 "")).headD ""

/-- `descr.split('>')[23].split('<')[0]` — the swath token. -/
def swathToken (descr : String) : String :=
  (pySplit '<' ((pySplit '>' descr).getD 23 "")).headD ""

/-- The orbit-direction branch of both scripts: `"A"` for the literal
`ASCENDING`, `"D"` for `DESCENDING`, otherwise
`raise ValueError(f'orb {orb} is not ASCENDING or DESCENDING!')`. -/
def classify (descr : String) : Except String String :=
  let orb := orbToken descr
  if orb = "ASCENDING" then Except.ok "A"
  else if orb = "DESCENDING" then Except.ok "D"
  else Except.error ("orb " ++ orb ++ " is not ASCENDING or DESCENDING!")

/-- `i = np.mod(int(path), 5); if i == 0: i = 5` — partition index from the
integer prefix (`np.mod` agrees with Lean's `Int.emod` for the positive
modulus 5). -/
def partition_index (n : ℤ) : ℤ :=
  if n % 5 = 0 then 5 else n % 5

/-- `path = geojson[0:3]` followed by the partition-index computation, when
the three characters parse as an integer. -/
def datasetPartition (geojson : String) : Option ℤ :=
  (pyToInt (pyTake geojson 3)).map partition_index

/-! ## Pre-run reset of the output trees

Both scripts run `for i in range(1, 5): for AD in ['A', 'D']:` and
`rm -rf` the directory `bname + AD + i` when it exists. -/

def reset_range : List ℕ := List.range' 1 4

def reset_dirs : List String :=
  reset_range.flatMap (fun i => ["A", "D"].map (fun AD => bname ++ AD ++ toString i))

/-- The directories (of those in `existing`) that survive the pre-run reset. -/
def afterReset (existing : List String) : List String :=
  existing.filter (fun d => decide (d ∉ reset_dirs))

/-! ## Output features and tile file paths -/

structure OutProps where
  name : String
  _color : String
  _opacity : ℚ
  _weight : ℚ
  _fillColor : String
  _fillOpacity : ℚ
deriving DecidableEq

/-- A Polygon output feature: styling properties plus the ring list of its
`Polygon` geometry. -/
structure OutFeature where
  props : OutProps
  geometry : List (List Coord)
deriving DecidableEq

/-- The four components handed to `os.path.join`, in order:
base directory, zoom-level directory, tile-x directory, tile-y file name. -/
structure TilePath where
  base : String
  zlDir : String
  xDir : String
  yFile : String
deriving DecidableEq

/-! ## Full-resolution tiling pipeline (S1burstkmz2geojsontile.py)

The per-feature body of the burst loop: parse the description tokens,
classify the orbit direction (which may raise), drop latitudes beyond ±84,
and otherwise produce the tile path and output feature. -/

noncomputable def processFeature (path : String) (i : ℤ) (zl : ℕ) (feature : InFeature) :
    Except String (Option (TilePath × OutFeature)) :=
  let descr := feature.description
  let bid := bidToken descr
  let swath := swathToken descr
  match classify descr with
  | Except.error e => Except.error e
  | Except.ok AD =>
    let color := if AD = "A" then colorA else colorD
    let name := path ++ AD ++ " " ++ swath ++ " " ++ bid
    let lat := firstLat feature
    let lon := firstLon feature
    if lat > 84 ∨ lat < -84 then Except.ok none
    else
      let xy := latlon2tileid (lat : ℝ) (lon : ℝ) zl
      Except.ok (some
        (⟨bname ++ AD ++ toString i, toString zl, toString xy.1,
          toString xy.2 ++ ".geojson"⟩,
         ⟨⟨name, color, line_opacity, line_width, color, fill_opacity⟩,
          feature.coordinates⟩))

/-- The feature (with its tile path) actually written by one loop iteration:
`none` when the iteration raised or skipped the footprint. -/
def emitted {ε α : Type} (r : Except ε (Option α)) : Option α :=
  match r with
  | Except.ok (some a) => some a
  | _ => none

/-- Whether a pipeline step raised (Python: an uncaught exception). -/
def isError {ε α : Type} : Except ε α → Bool
  | Except.error _ => true
  | Except.ok _ => false

/-! ## Dissolve pipeline (S1burstkmz2geojsontile_dissolve.py) -/

/-- The in-memory state threaded through the burst loop of the dissolve
script: the two polygon lists and the `color` variable, which is only
(re)assigned inside the classification branches. -/
structure DisState where
  polygonsA : List (List Coord)
  polygonsD : List (List Coord)
  color : Option String
deriving DecidableEq

/-- One iteration of the dissolve script's burst loop: the latitude filter
runs first, then classification (which may raise) appends the exterior ring
to the direction's polygon list and overwrites `color`. -/
def classifyStep (st : DisState) (feature : InFeature) : Except String DisState :=
  let lat := firstLat feature
  if lat > 84 ∨ lat < -84 then Except.ok st
  else
    let orb := orbToken feature.description
    if orb = "ASCENDING" then
      Except.ok ⟨st.polygonsA ++ [ring0 feature], st.polygonsD, some colorA⟩
    else if orb = "DESCENDING" then
      Except.ok ⟨st.polygonsA, st.polygonsD ++ [ring0 feature], some colorD⟩
    else Except.error ("orb " ++ orb ++ " is not ASCENDING or DESCENDING!")

/-- A polygon as produced by the geometric union: an exterior ring and
possibly interior rings (holes). -/
structure PolygonG where
  exterior : List Coord
  holes : List (List Coord)
deriving DecidableEq

/-- Modelled from the spec: shapely's `unary_union` over a `MultiPolygon`
(a dependency, not code of this repository).  Per the spec, the union of an
empty footprint list is an empty geometry with no parts to iterate, and
otherwise the result decomposes into a list of disjoint simple polygons.
The actual merged geometry is irrelevant to the claims below (which either
concern the empty case or hold for an arbitrary part list), so non-empty
input is modelled as one part per input ring. -/
def unary_union (polygons : List (List Coord)) : List PolygonG :=
  polygons.map (fun r => ⟨r, []⟩)

/-- Modelled from the spec: shapely's `poly.simplify(tolerance)`
(a dependency, not code of this repository), which reduces the vertex count
of a polygon's boundary within a tolerance.  No claim below depends on which
vertices are removed, so it is modelled as the identity on our polygon
model. -/
def simplify (_tol : ℚ) (p : PolygonG) : PolygonG := p

/-- `os.path.join(bname+f'{AD}{i}', '1', '1', '0.geojson')` — the fixed
output location of every overview feature. -/
def overviewPath (AD : String) (i : ℤ) : TilePath :=
  ⟨bname ++ AD ++ toString i, "1", "1", "0.geojson"⟩

/-- The emission loop over the parts of the dissolved geometry: one overview
feature per part, whose geometry is the single-ring list holding the
simplified part's exterior-ring coordinates, written to the fixed overview
path.  `color` is the current value of the script's `color` variable. -/
def emitOverview (parts : List PolygonG) (AD : String) (color : String)
    (path : String) (i : ℤ) : List (TilePath × OutFeature) :=
  parts.map (fun _poly =>
    let poly2 := simplify tolerance _poly
    let poly2_list := poly2.exterior
    let name2 := path ++ AD
    (overviewPath AD i,
     ⟨⟨name2, color, line_opacity, line_width, color, fill_opacity⟩,
      [poly2_list]⟩))

/-- One direction of the `for AD, polygons in zip(...)` loop: dissolve the
collected polygons and emit one overview feature per resulting part. -/
def dissolveDirection (polygons : List (List Coord)) (AD : String) (color : String)
    (path : String) (i : ℤ) : List (TilePath × OutFeature) :=
  emitOverview (unary_union polygons) AD color path i

/-- The whole per-dataset run of the dissolve script: fold the burst loop
over the features (propagating a classification error), then emit both
directions using the final — possibly stale — value of `color`. -/
def dissolveDataset (path : String) (i : ℤ) (features : List InFeature) :
    Except String (List (TilePath × OutFeature)) :=
  match features.foldlM classifyStep ⟨[], [], none⟩ with
  | Except.error e => Except.error e
  | Except.ok st =>
    Except.ok (dissolveDirection st.polygonsA "A" (st.color.getD "") path i ++
               dissolveDirection st.polygonsD "D" (st.color.getD "") path i)

/-! ## Concrete test inputs -/

/-- A description text with 24 `>`-delimited segments whose 12th segment,
read up to the next `<`, is `ASCENDING`. -/
def descrA : String := ">>>>>>>>>>>ASCENDING<td>>>>>>>>>>>>"

/-- Like `descrA` but with `DESCENDING`. -/
def descrD : String := ">>>>>>>>>>>DESCENDING<td>>>>>>>>>>>>"

/-- Like `descrA` but with an unrecognized orbit token. -/
def descrBad : String := ">>>>>>>>>>>SIDEWAYS<td>>>>>>>>>>>>"

/-- An in-range Ascending footprint. -/
def fAsc : InFeature := ⟨descrA, [[(0, 0), (1, 0), (1, 1), (0, 1), (0, 0)]]⟩

/-- An in-range Descending footprint. -/
def fDesc : InFeature := ⟨descrD, [[(2, 2), (3, 2), (3, 3), (2, 3), (2, 2)]]⟩

/-- An Ascending footprint whose first vertex has latitude 85. -/
def fHighLat : InFeature := ⟨descrA, [[(0, 85), (1, 85), (1, 86), (0, 85)]]⟩

/-- The overview output of running the dissolve pipeline on dataset `003`,
partition 3, with the single footprint `fAsc`. -/
def outC1 : List (TilePath × OutFeature) :=
  [(overviewPath "A" 3,
    ⟨⟨"003A", colorA, line_opacity, line_width, colorA, fill_opacity⟩,
     [[(0, 0), (1, 0), (1, 1), (0, 1), (0, 0)]]⟩)]

/-! ## Helper lemmas -/

theorem add_feature_get_none {α : Type} (f : α) (k : String) (fs : FS α)
    (h : fs k = none) : add_feature f k fs k = some [f] := by
  simp [add_feature, FS.update, h]

theorem add_feature_get_some {α : Type} (f : α) (k : String) (fs : FS α) (l : List α)
    (h : fs k = some l) : add_feature f k fs k = some (l ++ [f]) := by
  simp [add_feature, FS.update, h]

theorem foldl_add_feature {α : Type} (k : String) :
    ∀ (feats : List α) (fs : FS α) (l : List α), fs k = some l →
      (feats.foldl (fun s f => add_feature f k s) fs) k = some (l ++ feats)
  | [], fs, l, h => by simpa using h
  | f :: rest, fs, l, h => by
    have hstep := add_feature_get_some f k fs l h
    have := foldl_add_feature k rest (add_feature f k fs) (l ++ [f]) hstep
    simpa using this

theorem emitOverview_mem {parts : List PolygonG} {AD color path : String} {i : ℤ}
    {e : TilePath × OutFeature} (he : e ∈ emitOverview parts AD color path i) :
    e.1 = overviewPath AD i := by
  simp only [emitOverview, List.mem_map] at he
  obtain ⟨p, hp, rfl⟩ := he
  rfl

theorem pyInt_eq_zero {x : ℝ} (h1 : -1 < x) (h2 : x < 1) : pyInt x = 0 := by
  unfold pyInt
  by_cases h : 0 ≤ x
  · rw [if_pos h]
    exact Int.floor_eq_zero_iff.mpr ⟨h, h2⟩
  · rw [if_neg h]
    push_neg at h
    have : ⌊-x⌋ = 0 := Int.floor_eq_zero_iff.mpr ⟨by linarith, by linarith⟩
    simp [this]

theorem pyInt_eq_one {x : ℝ} (h1 : 1 ≤ x) (h2 : x < 2) : pyInt x = 1 := by
  unfold pyInt
  rw [if_pos (by linarith)]
  rw [Int.floor_eq_iff]
  constructor
  · exact_mod_cast h1
  · push_cast
    linarith

theorem exp_one_gt_two : (2 : ℝ) < exp 1 := by
  have := exp_one_gt_d9
  linarith

theorem exp_pi_gt_20 : (20 : ℝ) < exp π := by
  have h3 : Real.exp 3 = Real.exp 1 ^ 3 := by
    rw [← Real.exp_nat_mul]
    norm_num
  have hb : (2.7182818283 : ℝ) ^ 3 < Real.exp 1 ^ 3 :=
    pow_lt_pow_left₀ exp_one_gt_d9 (by norm_num) (by norm_num)
  have h20 : (20 : ℝ) < (2.7182818283 : ℝ) ^ 3 := by norm_num
  have hmono : Real.exp 3 < Real.exp π := Real.exp_lt_exp.mpr pi_gt_three
  linarith

theorem exp_pi_lt_55 : exp π < (55 : ℝ) := by
  have h4 : Real.exp 4 = Real.exp 1 ^ 4 := by
    rw [← Real.exp_nat_mul]
    norm_num
  have hb : Real.exp 1 ^ 4 < (2.7182818286 : ℝ) ^ 4 :=
    pow_lt_pow_left₀ exp_one_lt_d9 (Real.exp_pos 1).le (by norm_num)
  have h55 : (2.7182818286 : ℝ) ^ 4 < 55 := by norm_num
  have hmono : Real.exp π < Real.exp 4 := Real.exp_lt_exp.mpr pi_lt_four
  linarith

theorem exp_9_gt_512 : (512 : ℝ) < exp 9 := by
  have h9 : Real.exp 9 = Real.exp 1 ^ 9 := by
    rw [← Real.exp_nat_mul]
    norm_num
  have hb : (2 : ℝ) ^ 9 < Real.exp 1 ^ 9 :=
    pow_lt_pow_left₀ exp_one_gt_two (by norm_num) (by norm_num)
  rw [h9]
  calc (512 : ℝ) = 2 ^ 9 := by norm_num
  _ < Real.exp 1 ^ 9 := hb

theorem tan_lt_two_mul {x : ℝ} (h1 : 0 < x) (h2 : x ≤ π/3) : tan x < 2 * x := by
  have hpi := pi_pos
  have hx2 : x < π/2 := by linarith
  have hcos_half : (1/2 : ℝ) ≤ cos x := by
    have hcc : cos (π/3) ≤ cos x :=
      cos_le_cos_of_nonneg_of_le_pi h1.le (by linarith) h2
    rw [Real.cos_pi_div_three] at hcc
    exact hcc
  have hcospos : (0:ℝ) < cos x := by linarith
  have hsin : sin x < x := Real.sin_lt h1
  rw [Real.tan_eq_sin_div_cos, div_lt_iff₀ hcospos]
  nlinarith [mul_nonneg (by linarith : (0:ℝ) ≤ 2 * cos x - 1) h1.le]

theorem y_zero_of_abs_le_84 {lat : ℝ} (ha : -84 ≤ lat) (hb : lat ≤ 84) (lon : ℝ) :
    (latlon2tileid lat lon 0).2 = 0 := by
  have hpi := pi_pos
  have hπ3 := pi_gt_three
  have hπ4 := pi_lt_four
  simp only [latlon2tileid]
  set d : ℝ := 45 + lat / 2 with hd
  have hd1 : 3 ≤ d := by rw [hd]; linarith
  have hd2 : d ≤ 87 := by rw [hd]; linarith
  set θ : ℝ := deg2rad d with hθdef
  have hθval : θ = d * π / 180 := rfl
  have hθlb : π/60 ≤ θ := by
    rw [hθval]
    nlinarith [mul_nonneg (by linarith : (0:ℝ) ≤ d - 3) hpi.le]
  have hθub : θ ≤ 29*π/60 := by
    rw [hθval]
    nlinarith [mul_nonneg (by linarith : (0:ℝ) ≤ 87 - d) hpi.le]
  have hθpos : 0 < θ := lt_of_lt_of_le (by positivity) hθlb
  have hθltpi2 : θ < π/2 := by linarith
  have h60pos : (0:ℝ) < π/60 := by positivity
  have h60lt : π/60 < π/2 := by linarith
  have htan_mono := Real.strictMonoOn_tan.monotoneOn
  have hmemθ : θ ∈ Set.Ioo (-(π/2)) (π/2) := ⟨by linarith, hθltpi2⟩
  have hmem60 : π/60 ∈ Set.Ioo (-(π/2)) (π/2) := ⟨by linarith, h60lt⟩
  have hmem29 : 29*π/60 ∈ Set.Ioo (-(π/2)) (π/2) := ⟨by linarith, by linarith⟩
  have htan_lb : tan (π/60) ≤ tan θ := htan_mono hmem60 hmemθ hθlb
  have hlt_tan60 : π/60 < tan (π/60) := Real.lt_tan h60pos h60lt
  have hexp_neg_pi : exp (-π) < π/60 := by
    rw [Real.exp_neg]
    have hinv : (Real.exp π)⁻¹ < (20:ℝ)⁻¹ := inv_strictAnti₀ (by norm_num) exp_pi_gt_20
    have h2060 : (20:ℝ)⁻¹ < π/60 := by
      rw [show (20:ℝ)⁻¹ = 3/60 by norm_num]
      linarith
    linarith
  have htanθ_lb : exp (-π) < tan θ := by linarith
  have htanθpos : 0 < tan θ := lt_trans (Real.exp_pos _) htanθ_lb
  have htan_ub : tan θ ≤ tan (29*π/60) := htan_mono hmemθ hmem29 hθub
  have hcos29 : cos (29*π/60) = sin (π/60) := by
    rw [show (29:ℝ)*π/60 = π/2 - π/60 by ring, Real.cos_pi_div_two_sub]
  have hsin60_lb : (1/20 : ℝ) < sin (π/60) := by
    have hcube := Real.sin_gt_sub_cube h60pos (by linarith : π/60 ≤ 1)
    have hq1 : π/60 < 21/400 := by linarith [pi_lt_d2]
    have hq2 : (π/60)^3 < (21/400:ℝ)^3 :=
      pow_lt_pow_left₀ hq1 (by positivity) (by norm_num)
    have hq3 : ((21:ℝ)/400)^3 = 9261/64000000 := by norm_num
    linarith [pi_gt_d2]
  have hsin60pos : (0:ℝ) < sin (π/60) := by linarith
  have htan29_ub : tan (29*π/60) < 20 := by
    rw [Real.tan_eq_sin_div_cos, hcos29, div_lt_iff₀ hsin60pos]
    linarith [Real.sin_le_one (29*π/60)]
  have htanθ_ub : tan θ < exp (3*π) := by
    have h9lt : Real.exp 9 < Real.exp (3*π) := Real.exp_lt_exp.mpr (by linarith)
    have h512 := exp_9_gt_512
    linarith
  have hL1 : -π < Real.log (tan θ) := by
    rw [Real.lt_log_iff_exp_lt htanθpos]
    exact htanθ_lb
  have hL2 : Real.log (tan θ) < 3*π := by
    rw [Real.log_lt_iff_lt_exp htanθpos]
    exact htanθ_ub
  simp only [pow_zero, mul_one]
  apply pyInt_eq_zero
  · rw [lt_div_iff₀ (by positivity : (0:ℝ) < 2*π)]
    linarith
  · rw [div_lt_iff₀ (by positivity : (0:ℝ) < 2*π)]
    linarith

theorem y_one_at_minus89 (lon : ℝ) : (latlon2tileid (-89) lon 0).2 = 1 := by
  have hpi := pi_pos
  have hπ3 := pi_gt_three
  simp only [latlon2tileid]
  have hθ : deg2rad (45 + (-89)/2) = π/360 := by
    unfold deg2rad
    ring
  rw [hθ]
  simp only [pow_zero, mul_one]
  have h360pos : (0:ℝ) < π/360 := by positivity
  have h360lt : π/360 < π/2 := by linarith
  have hlt := Real.lt_tan h360pos h360lt
  have htanpos : (0:ℝ) < tan (π/360) := lt_trans h360pos hlt
  have hub : tan (π/360) < 2*(π/360) := tan_lt_two_mul h360pos (by linarith)
  have hub2 : tan (π/360) < exp (-π) := by
    have hexp : π/180 < exp (-π) := by
      rw [Real.exp_neg]
      have hinv : (55:ℝ)⁻¹ < (Real.exp π)⁻¹ := inv_strictAnti₀ (Real.exp_pos π) exp_pi_lt_55
      have h55 : π/180 < (55:ℝ)⁻¹ := by
        rw [show (55:ℝ)⁻¹ = (180/55)/180 by norm_num]
        have : π < 180/55 := by linarith [pi_lt_d2]
        linarith
      linarith
    linarith
  have hlb : exp (-3*π) < tan (π/360) := by
    have hmono : Real.exp (-3*π) < Real.exp (-9:ℝ) := Real.exp_lt_exp.mpr (by linarith)
    have h9inv : Real.exp (-9:ℝ) = (Real.exp 9)⁻¹ := Real.exp_neg 9
    have hinv : (Real.exp 9)⁻¹ < (512:ℝ)⁻¹ := inv_strictAnti₀ (by norm_num) exp_9_gt_512
    have h120 : (512:ℝ)⁻¹ < π/360 := by
      rw [show (512:ℝ)⁻¹ = (360/512)/360 by norm_num]
      have : (360:ℝ)/512 < 3 := by norm_num
      linarith
    rw [h9inv] at hmono
    linarith
  have hL1 : Real.log (tan (π/360)) < -π := by
    rw [Real.log_lt_iff_lt_exp htanpos]
    exact hub2
  have hL2 : -3*π < Real.log (tan (π/360)) := by
    rw [Real.lt_log_iff_exp_lt htanpos]
    exact hlb
  apply pyInt_eq_one
  · rw [le_div_iff₀ (by positivity : (0:ℝ) < 2*π)]
    linarith
  · rw [div_lt_iff₀ (by positivity : (0:ℝ) < 2*π)]
    linarith

theorem tileX_bounds (lat lon : ℝ) (zl : ℕ) (h1 : -180 ≤ lon) (h2 : lon < 180) :
    0 ≤ (latlon2tileid lat lon zl).1 ∧ (latlon2tileid lat lon zl).1 ≤ 2 ^ zl - 1 := by
  simp only [latlon2tileid]
  have h180 : (0:ℝ) < 180 := by norm_num
  have hpow : (0:ℝ) < 2^zl := by positivity
  have hlb : (-1:ℝ) ≤ lon / 180 := by
    rw [le_div_iff₀ h180]
    linarith
  have hub : lon / 180 < 1 := by
    rw [div_lt_one h180]
    linarith
  have ha0 : (0:ℝ) ≤ (lon/180 + 1) * 2^zl / 2 := by
    apply div_nonneg _ (by norm_num)
    exact mul_nonneg (by linarith) hpow.le
  have halt : (lon/180 + 1) * 2^zl / 2 < 2^zl := by
    rw [div_lt_iff₀ (by norm_num : (0:ℝ) < 2)]
    nlinarith
  unfold pyInt
  rw [if_pos ha0]
  constructor
  · exact Int.le_floor.mpr (by exact_mod_cast ha0)
  · have hf : ⌊(lon/180 + 1) * 2^zl / 2⌋ < 2^zl := by
      rw [Int.floor_lt]
      push_cast
      exact halt
    linarith

theorem tileX_neg180 (lat : ℝ) (zl : ℕ) : (latlon2tileid lat (-180) zl).1 = 0 := by
  simp only [latlon2tileid]
  have hz : ((-180:ℝ)/180 + 1) * 2^zl / 2 = 0 := by norm_num
  rw [hz]
  unfold pyInt
  rw [if_pos le_rfl]
  exact Int.floor_zero

theorem tileX_zero_at_zl0 (lat lon : ℝ) (h1 : -180 ≤ lon) (h2 : lon < 180) :
    (latlon2tileid lat lon 0).1 = 0 := by
  simp only [latlon2tileid]
  simp only [pow_zero, mul_one]
  have h180 : (0:ℝ) < 180 := by norm_num
  have hlb : (-1:ℝ) ≤ lon / 180 := by
    rw [le_div_iff₀ h180]
    linarith
  have hub : lon / 180 < 1 := by
    rw [div_lt_one h180]
    linarith
  apply pyInt_eq_zero
  · rw [lt_div_iff₀ (by norm_num : (0:ℝ) < 2)]
    linarith
  · rw [div_lt_iff₀ (by norm_num : (0:ℝ) < 2)]
    linarith

/-! ## Claims -/

/-- C5: appending to a tile key with no backing file creates a collection
with exactly that one feature; a second append yields exactly the two
features in insertion order with the first unchanged; after appending the
features `f1 :: feats` one by one, the file holds exactly those features in
append order. -/
theorem C5_store {α : Type} (k : String) (fs0 : FS α) (f1 f2 : α) (feats : List α)
    (h : fs0 k = none) :
    add_feature f1 k fs0 k = some [f1] ∧
    add_feature f2 k (add_feature f1 k fs0) k = some [f1, f2] ∧
    ((f1 :: feats).foldl (fun s f => add_feature f k s) fs0) k = some (f1 :: feats) := by
  have h1 := add_feature_get_none f1 k fs0 h
  refine ⟨h1, ?_, ?_⟩
  · simpa using add_feature_get_some f2 k (add_feature f1 k fs0) [f1] h1
  · simpa using foldl_add_feature k feats (add_feature f1 k fs0) [f1] h1

/-- Witness for C5 at a concrete store, key and features. -/
theorem C5_store_witness :
    ((fun _ => none : FS ℕ) "t" = none) ∧
    (add_feature 1 "t" (fun _ => none : FS ℕ) "t" = some [1] ∧
     add_feature 2 "t" (add_feature 1 "t" (fun _ => none : FS ℕ)) "t" = some [1, 2] ∧
     (((1 : ℕ) :: [3]).foldl (fun s f => add_feature f "t" s) (fun _ => none)) "t" =
       some (1 :: [3])) :=
  ⟨rfl, C5_store "t" (fun _ => none) 1 2 [3] rfl⟩

/-- C7: when the first three characters of the dataset identifier parse as
an integer, the partition index is that integer mod 5 with 0 remapped to 5,
hence always in [1, 5]; prefixes 003, 008, 010, 000 give 3, 3, 5, 5. -/
theorem C7_partition (s : String) (n : ℤ) (h : pyToInt (pyTake s 3) = some n) :
    datasetPartition s = some (partition_index n) ∧
    1 ≤ partition_index n ∧ partition_index n ≤ 5 ∧
    (n % 5 ≠ 0 → partition_index n = n % 5) ∧
    (n % 5 = 0 → partition_index n = 5) ∧
    partition_index 3 = 3 ∧ partition_index 8 = 3 ∧
    partition_index 10 = 5 ∧ partition_index 0 = 5 := by
  refine ⟨by simp [datasetPartition, h], ?_, ?_, ?_, ?_,
    by decide, by decide, by decide, by decide⟩ <;>
    unfold partition_index <;> split <;> omega

/-- Witness for C7 at the dataset identifier prefix 008. -/
theorem C7_partition_witness :
    (pyToInt (pyTake "008abc" 3) = some 8) ∧
    (datasetPartition "008abc" = some (partition_index 8) ∧
     1 ≤ partition_index 8 ∧ partition_index 8 ≤ 5 ∧
     ((8 : ℤ) % 5 ≠ 0 → partition_index 8 = 8 % 5) ∧
     ((8 : ℤ) % 5 = 0 → partition_index 8 = 5) ∧
     partition_index 3 = 3 ∧ partition_index 8 = 3 ∧
     partition_index 10 = 5 ∧ partition_index 0 = 5) :=
  ⟨by decide, C7_partition "008abc" 8 (by decide)⟩

/-- C8: for a description with at least 24 `>`-delimited segments,
classification fails exactly when the 12th segment read up to the next `<`
is neither the literal ASCENDING nor DESCENDING; those two literals yield
directions A and D respectively, and any other token raises, with no silent
default. -/
theorem C8_classify (descr : String) (h : 24 ≤ (pySplit '>' descr).length) :
    (isError (classify descr) = true ↔
      orbToken descr ≠ "ASCENDING" ∧ orbToken descr ≠ "DESCENDING") ∧
    (orbToken descr = "ASCENDING" → classify descr = Except.ok "A") ∧
    (orbToken descr = "DESCENDING" → classify descr = Except.ok "D") ∧
    (orbToken descr ≠ "ASCENDING" → orbToken descr ≠ "DESCENDING" →
      classify descr =
        Except.error ("orb " ++ orbToken descr ++ " is not ASCENDING or DESCENDING!")) := by
  unfold classify isError
  by_cases hA : orbToken descr = "ASCENDING"
  · simp [hA]
  · by_cases hD : orbToken descr = "DESCENDING" <;> simp [hA, hD]

/-- Witness for C8 at a concrete 24-segment description. -/
theorem C8_classify_witness :
    (24 ≤ (pySplit '>' descrA).length) ∧
    ((isError (classify descrA) = true ↔
      orbToken descrA ≠ "ASCENDING" ∧ orbToken descrA ≠ "DESCENDING") ∧
     (orbToken descrA = "ASCENDING" → classify descrA = Except.ok "A") ∧
     (orbToken descrA = "DESCENDING" → classify descrA = Except.ok "D") ∧
     (orbToken descrA ≠ "ASCENDING" → orbToken descrA ≠ "DESCENDING" →
       classify descrA =
         Except.error ("orb " ++ orbToken descrA ++ " is not ASCENDING or DESCENDING!"))) :=
  ⟨by decide, C8_classify descrA (by decide)⟩

/-- C6: a footprint whose first exterior-ring vertex latitude exceeds 84 or
is below -84 contributes no output feature: the full-resolution loop
iteration emits nothing for it, and the dissolve loop iteration leaves the
collected polygon lists (and the whole state) unchanged. -/
theorem C6_latfilter (path : String) (i : ℤ) (zl : ℕ) (f : InFeature) (st : DisState)
    (h : firstLat f > 84 ∨ firstLat f < -84) :
    emitted (processFeature path i zl f) = none ∧ classifyStep st f = Except.ok st := by
  constructor
  · simp only [processFeature]
    rcases classify f.description with e | AD
    · rfl
    · simp only [if_pos h]
      rfl
  · simp only [classifyStep, if_pos h]

/-- Witness for C6 at a latitude-85 Ascending footprint. -/
theorem C6_latfilter_witness :
    (firstLat fHighLat > 84 ∨ firstLat fHighLat < -84) ∧
    (emitted (processFeature "003" 3 6 fHighLat) = none ∧
     classifyStep ⟨[], [], none⟩ fHighLat = Except.ok ⟨[], [], none⟩) :=
  ⟨Or.inl (by decide), C6_latfilter "003" 3 6 fHighLat ⟨[], [], none⟩ (Or.inl (by decide))⟩

/-- C9: a direction whose collected polygon list is empty produces no
overview feature and no error: the per-direction dissolve emits nothing,
and a dataset with no features at all completes with an ok empty output. -/
theorem C9_empty_direction (AD color path : String) (i : ℤ) :
    dissolveDirection [] AD color path i = [] ∧
    dissolveDataset path i [] = Except.ok [] :=
  ⟨rfl, rfl⟩

/-- C10: every overview feature's geometry is the one-element ring list
holding exactly the simplified part's exterior ring, for an arbitrary list
of dissolved parts — interior rings (holes) of a part are never emitted. -/
theorem C10_exterior_only (parts : List PolygonG) (AD color path : String) (i : ℤ) :
    (emitOverview parts AD color path i).map (fun e => e.2.geometry) =
      parts.map (fun p => [(simplify tolerance p).exterior]) := by
  simp [emitOverview]

/-- C3 (code bug): the pre-run reset loop `for i in range(1, 5)` covers only
partitions 1–4, so the partition-5 trees S1burstA5 and S1burstD5 are never
destroyed and survive the reset, even though partition 5 is a real output
(the partition index maps 10 to 5). -/
theorem C3_reset_misses_partition5 :
    reset_dirs = ["S1burstA1", "S1burstD1", "S1burstA2", "S1burstD2",
                  "S1burstA3", "S1burstD3", "S1burstA4", "S1burstD4"] ∧
    "S1burstA5" ∉ reset_dirs ∧ "S1burstD5" ∉ reset_dirs ∧
    afterReset ["S1burstA5", "S1burstD5"] = ["S1burstA5", "S1burstD5"] ∧
    partition_index 10 = 5 := by
  refine ⟨by decide, by decide, by decide, by decide, by decide⟩

/-- C2 (code bug): running the dissolve pipeline on dataset 003 with one
in-range ASCENDING footprint classified before one in-range DESCENDING
footprint emits the Ascending overview feature with `_color` and
`_fillColor` equal to `#ff0000` — the stale value of the script's `color`
variable from the last classified footprint — not the Ascending blue
`#0000ff`. -/
theorem C2_stale_color :
    (dissolveDataset "003" 3 [fAsc, fDesc]).map
        (fun out => out.map (fun e => (e.1.base, e.2.props._color, e.2.props._fillColor))) =
      Except.ok [("S1burstA3", "#ff0000", "#ff0000"),
                 ("S1burstD3", "#ff0000", "#ff0000")] ∧
    colorA = "#0000ff" ∧ ("#ff0000" : String) ≠ "#0000ff" :=
  ⟨rfl, rfl, by decide⟩

/-- C1 (counterexample): the overview feature emitted for dataset 003,
partition 3, lands at path components base/1/1/0.geojson — under the
`<base>/<zoomLevel>/<tileX>/<tileY>.geojson` layout its tileY file is
`0.geojson`, not the `1.geojson` that tile coordinates (1, 1) would give. -/
theorem C1_counterexample :
    (dissolveDataset "003" 3 [fAsc]).map (fun out => out.map Prod.fst) =
      Except.ok [⟨"S1burstA3", "1", "1", "0.geojson"⟩] ∧
    (⟨"S1burstA3", "1", "1", "0.geojson"⟩ : TilePath).yFile ≠ "1.geojson" :=
  ⟨rfl, by decide⟩

/-- C1 (amended): every overview feature emitted by a successful dissolve
run of any dataset is targeted at the fixed tile with zoom level 1 and tile
coordinates (tileX, tileY) = (1, 0), i.e. path `<bname><AD><i>/1/1/0.geojson`
with direction AD either A or D. -/
theorem C1_overview_fixed_tile (path : String) (i : ℤ) (feats : List InFeature)
    (out : List (TilePath × OutFeature))
    (h : dissolveDataset path i feats = Except.ok out) :
    out.all (fun e =>
      e.1.zlDir == "1" && e.1.xDir == "1" && e.1.yFile == "0.geojson" &&
      (e.1.base == bname ++ "A" ++ toString i || e.1.base == bname ++ "D" ++ toString i)) =
      true := by
  unfold dissolveDataset at h
  split at h
  · exact absurd h (by simp)
  · injection h with h
    subst h
    rw [List.all_append, Bool.and_eq_true]
    constructor <;>
    · rw [List.all_eq_true]
      intro e he
      simp only [dissolveDirection] at he
      have hp := emitOverview_mem he
      simp [hp, overviewPath]

/-- Witness for the amended C1 at a concrete dataset. -/
theorem C1_overview_fixed_tile_witness :
    (dissolveDataset "003" 3 [fAsc] = Except.ok outC1) ∧
    outC1.all (fun e =>
      e.1.zlDir == "1" && e.1.xDir == "1" && e.1.yFile == "0.geojson" &&
      (e.1.base == bname ++ "A" ++ toString (3 : ℤ) ||
       e.1.base == bname ++ "D" ++ toString (3 : ℤ))) = true :=
  ⟨rfl, C1_overview_fixed_tile "003" 3 [fAsc] outC1 rfl⟩

/-- C4 (counterexample): at longitude 180 — inside the claimed domain
[-180, 180] — the tile x index equals `2 ^ zoomLevel`, one past the claimed
maximum `2 ^ zoomLevel - 1`: at zoom 0 it is 1 (so not every zoom-0 input
maps to tile (0, 0)) and at zoom 6 it is 64, outside [0, 63]; moreover at
latitude -89 (inside (-90, 90)) the zoom-0 tile y index is 1, not 0. -/
theorem C4_counterexample :
    (latlon2tileid 0 180 0).1 = 1 ∧ (latlon2tileid 0 180 6).1 = 64 ∧
    (latlon2tileid (-89) 0 0).2 = 1 := by
  refine ⟨?_, ?_, y_one_at_minus89 0⟩
  · simp only [latlon2tileid]
    have hv : ((180:ℝ)/180 + 1) * 2^(0:ℕ) / 2 = 1 := by norm_num
    rw [hv]
    exact pyInt_eq_one le_rfl one_lt_two
  · simp only [latlon2tileid]
    have hv : ((180:ℝ)/180 + 1) * 2^(6:ℕ) / 2 = 64 := by norm_num
    rw [hv]
    unfold pyInt
    rw [if_pos (by norm_num)]
    rw [show (64:ℝ) = ((64:ℤ):ℝ) by norm_num]
    exact Int.floor_intCast 64

/-- C4 (amended): for every latitude, every longitude in [-180, 180) and
every zoom level, the tile x index returned by `latlon2tileid` lies in
[0, 2 ^ zoomLevel - 1], with longitude -180 giving x = 0 at any zoom; and
at zoom level 0 every input whose latitude lies in [-84, 84] (the range the
callers guarantee) maps to tile (0, 0). -/
theorem C4_tile_formula (lat lon : ℝ) (zl : ℕ) (h1 : -180 ≤ lon) (h2 : lon < 180) :
    (0 ≤ (latlon2tileid lat lon zl).1 ∧ (latlon2tileid lat lon zl).1 ≤ 2 ^ zl - 1) ∧
    (lon = -180 → (latlon2tileid lat lon zl).1 = 0) ∧
    (-84 ≤ lat → lat ≤ 84 → latlon2tileid lat lon 0 = (0, 0)) := by
  refine ⟨tileX_bounds lat lon zl h1 h2, ?_, ?_⟩
  · intro h
    subst h
    exact tileX_neg180 lat zl
  · intro ha hb
    exact Prod.ext (tileX_zero_at_zl0 lat lon h1 h2) (y_zero_of_abs_le_84 ha hb lon)

/-- Witness for the amended C4 at latitude 0, longitude 0, zoom 6. -/
theorem C4_tile_formula_witness :
    ((-180:ℝ) ≤ 0 ∧ (0:ℝ) < 180) ∧
    ((0 ≤ (latlon2tileid 0 0 6).1 ∧ (latlon2tileid 0 0 6).1 ≤ 2 ^ 6 - 1) ∧
     ((0:ℝ) = -180 → (latlon2tileid 0 0 6).1 = 0) ∧
     ((-84:ℝ) ≤ 0 → (0:ℝ) ≤ 84 → latlon2tileid 0 0 0 = (0, 0))) :=
  ⟨⟨by norm_num, by norm_num⟩, C4_tile_formula 0 0 6 (by norm_num) (by norm_num)⟩

end S1
